import Mathlib

set_option maxRecDepth 8000

/-! Verification development for the MenuMap repository: a shallow embedding
of the prompt parser and relevance scorer (src/matcher.py), the menu query
tools (src/tools.py) and the tool-dispatch boundary (src/ai_coach.py),
together with theorems settling the specification claims. -/

/-- ASCII case folding of a string to a character list: models Python
`str.lower()` and SQLite `LOWER()` on the ASCII data this program handles. -/
def lowerOf (s : String) : List Char :=
  s.toList.map Char.toLower

/-- String form of `lowerOf`, modelling `category.lower()` and friends. -/
def lowerStr (s : String) : String :=
  String.mk (lowerOf s)

/-- Whether `pre` occurs at the very start of `cs`. -/
def leadsWith : List Char → List Char → Bool
  | [], _ => true
  | _ :: _, [] => false
  | a :: as, b :: bs => a == b && leadsWith as bs

/-- Whether `needle` occurs as a contiguous substring of `haystack`:
models Python `needle in haystack` and SQLite `LIKE '%needle%'`. -/
def hasSub (needle : List Char) : List Char → Bool
  | [] => leadsWith needle []
  | l@(_ :: rest) => leadsWith needle l || hasSub needle rest

def isDigitCh (c : Char) : Bool := c.isDigit

/-- Python whitespace class `\s` (ASCII part). -/
def isSpaceCh (c : Char) : Bool :=
  c == ' ' || c == '\t' || c == '\n' || c == '\r' || c == '\x0b' || c == '\x0c'

/-- Numeric value of a digit run, modelling Python `int(...)` on it. -/
def digitsToNat (ds : List Char) : Nat :=
  ds.foldl (fun a c => a * 10 + (c.toNat - 48)) 0

/-- Leftmost match of the regex `under (\d+)\s*(?:cal|calories)` used by
`MenuMatcher._parse_prompt`, returning the captured number.  Since a digit
run cannot be followed by a digit and a whitespace run cannot be followed
by whitespace, backtracking inside `\d+` or `\s*` can never produce a match
here, so the regex matches at a position exactly when `"under "` is
followed by the maximal digit run, the maximal whitespace run and then
`"cal"` (`"calories"` extends `"cal"`, so only `"cal"` is required). -/
def underCalSearch : List Char → Option Nat
  | [] => none
  | l@(_ :: rest) =>
    if leadsWith ("under ".toList) l then
      let afterU := l.drop 6
      let run := afterU.takeWhile isDigitCh
      if run.isEmpty then underCalSearch rest
      else if leadsWith ("cal".toList) ((afterU.dropWhile isDigitCh).dropWhile isSpaceCh) then
        some (digitsToNat run)
      else underCalSearch rest
    else underCalSearch rest

/-- Whether the alternative `under (\d+) cal` of the generic low-calorie
pattern of `MenuMatcher.NUTRITION_PATTERNS` matches somewhere in the text
(a literal single space stands before `cal` in that pattern). -/
def underCalLit : List Char → Bool
  | [] => false
  | l@(_ :: rest) =>
    (leadsWith ("under ".toList) l &&
      (let afterU := l.drop 6
       !(afterU.takeWhile isDigitCh).isEmpty &&
         leadsWith (" cal".toList) (afterU.dropWhile isDigitCh)))
    || underCalLit rest

/-- Tail `\s*(?:of\s*)?protein` of the protein regex. -/
def proteinTail2 (cs : List Char) : Bool :=
  let c := cs.dropWhile isSpaceCh
  (leadsWith ("of".toList) c &&
    leadsWith ("protein".toList) ((c.drop 2).dropWhile isSpaceCh))
  || leadsWith ("protein".toList) c

/-- Tail `\s*(?:g|grams?)?\s*(?:of\s*)?protein` of the protein regex; the
unit token alternatives are tried explicitly, and when the token is absent
the two `\s*` groups merge into the one dropped by `proteinTail2`. -/
def proteinTail (cs : List Char) : Bool :=
  let c := cs.dropWhile isSpaceCh
  (leadsWith ("grams".toList) c && proteinTail2 (c.drop 5))
  || (leadsWith ("gram".toList) c && proteinTail2 (c.drop 4))
  || (leadsWith ("g".toList) c && proteinTail2 (c.drop 1))
  || proteinTail2 cs

/-- Leftmost match of the regex `(\d+)\s*(?:g|grams?)?\s*(?:of\s*)?protein`
used by `MenuMatcher._parse_prompt`, returning the captured number.  A
match starting inside a digit run succeeds exactly when the match from the
start of that run does, so scanning positions left to right returns the
captured group of `re.search`. -/
def proteinSearch : List Char → Option Nat
  | [] => none
  | l@(c :: rest) =>
    if isDigitCh c then
      if proteinTail (l.dropWhile isDigitCh) then some (digitsToNat (l.takeWhile isDigitCh))
      else proteinSearch rest
    else proteinSearch rest

/-- `MenuMatcher.FOOD_KEYWORDS` (src/matcher.py lines 36-54), in source
order: food category name to synonym substrings. -/
def FOOD_KEYWORDS : List (String × List String) :=
  [ ("pizza", ["pizza", "flatbread", "margherita"]),
    ("burger", ["burger", "hamburger", "cheeseburger"]),
    ("chicken", ["chicken", "poultry", "wings", "tenders", "grilled chicken"]),
    ("salad", ["salad", "greens", "lettuce", "spinach"]),
    ("pasta", ["pasta", "spaghetti", "penne", "linguine", "mac and cheese", "macaroni"]),
    ("sandwich", ["sandwich", "sub", "wrap", "panini", "hoagie"]),
    ("breakfast", ["eggs", "bacon", "pancakes", "waffle", "oatmeal", "cereal", "toast"]),
    ("coffee", ["coffee", "latte", "espresso", "cappuccino", "mocha"]),
    ("smoothie", ["smoothie", "shake", "blend"]),
    ("soup", ["soup", "chili", "stew", "broth"]),
    ("asian", ["stir fry", "rice bowl", "teriyaki", "lo mein", "fried rice", "sushi", "ramen"]),
    ("mexican", ["taco", "burrito", "quesadilla", "nachos", "guac"]),
    ("healthy", ["grilled", "steamed", "fresh", "salad", "lean"]),
    ("comfort", ["mac and cheese", "mashed", "gravy", "fried", "crispy"]),
    ("sweet", ["dessert", "cookie", "cake", "ice cream", "brownie", "muffin"]),
    ("fruit", ["fruit", "apple", "banana", "orange", "berry", "melon"]),
    ("protein", ["chicken", "beef", "steak", "fish", "salmon", "tuna", "tofu", "eggs"]) ]

/-- `MenuMatcher.DIETARY_PATTERNS` (src/matcher.py lines 57-65), in source
order: trigger phrase to canonical dietary tag. -/
def DIETARY_PATTERNS : List (String × String) :=
  [ ("vegan", "Vegan"),
    ("vegetarian", "Vegetarian"),
    ("gluten-free", "Avoiding Gluten"),
    ("gluten free", "Avoiding Gluten"),
    ("no gluten", "Avoiding Gluten"),
    ("halal", "Halal"),
    ("kosher", "Kosher") ]

/-- Comparison operator of a nutrition filter. -/
inductive NutOp where
  | ge
  | le
deriving DecidableEq

/-- The `nutrition_filters` dictionary of a parsed query: its only possible
keys are protein, calories, carbs and fat, each mapped to an operator and
an integer threshold. -/
structure NutFilters where
  protein : Option (NutOp × Int) := none
  calories : Option (NutOp × Int) := none
  carbs : Option (NutOp × Int) := none
  fat : Option (NutOp × Int) := none
deriving DecidableEq

/-- The dictionary returned by `MenuMatcher._parse_prompt`; the
`location_preference` entry is always `None` in the source and is omitted. -/
structure ParsedQuery where
  food_keywords : List String
  dietary_filters : List String
  nutrition_filters : NutFilters
  period : Option String
deriving DecidableEq

/-- `MenuMatcher._parse_prompt` (src/matcher.py lines 82-128). -/
def parsePrompt (prompt : String) : ParsedQuery :=
  let pl := lowerOf prompt
  let fks := FOOD_KEYWORDS.flatMap (fun p => p.2.filter (fun kw => hasSub kw.toList pl))
  let dfs := DIETARY_PATTERNS.filterMap
    (fun p => if hasSub p.1.toList pl then some p.2 else none)
  let period :=
    if hasSub ("breakfast".toList) pl then some ("Breakfast")
    else if hasSub ("lunch".toList) pl then some ("Lunch")
    else if hasSub ("dinner".toList) pl then some ("Dinner")
    else none
  let nf0 : NutFilters := {}
  let nf1 :=
    if hasSub ("high protein".toList) pl || hasSub ("protein rich".toList) pl
        || hasSub ("lots of protein".toList) pl then
      { nf0 with protein := some (NutOp.ge, 20) }
    else nf0
  let nf2 :=
    if hasSub ("low calorie".toList) pl || hasSub ("light".toList) pl
        || hasSub ("diet".toList) pl || underCalLit pl then
      { nf1 with calories := some (NutOp.le, 400) }
    else nf1
  let nf3 :=
    if hasSub ("low carb".toList) pl || hasSub ("keto".toList) pl then
      { nf2 with carbs := some (NutOp.le, 20) }
    else nf2
  let nf4 :=
    if hasSub ("low fat".toList) pl then { nf3 with fat := some (NutOp.le, 10) } else nf3
  let nf5 :=
    if hasSub ("high calorie".toList) pl || hasSub ("bulking".toList) pl
        || hasSub ("gains".toList) pl then
      { nf4 with calories := some (NutOp.ge, 600) }
    else nf4
  let nf6 :=
    match underCalSearch pl with
    | some n => { nf5 with calories := some (NutOp.le, (n : Int)) }
    | none => nf5
  let nf7 :=
    match proteinSearch pl with
    | some n => { nf6 with protein := some (NutOp.ge, (n : Int)) }
    | none => nf6
  { food_keywords := fks, dietary_filters := dfs, nutrition_filters := nf7, period := period }

/-- A row of the `menu_items` table joined with its location name, the shape
fetched by both `MenuMatcher.search` and `tools.search_menu`.  Nullable
columns are `Option`; numeric nutrition columns are rationals (exact for
the decimal values the scraper stores), calories an integer per schema. -/
structure MenuRow where
  date : String
  name : String
  location : String
  period : String
  category : String
  description : Option String
  calories : Option Int
  protein : Option Rat
  carbs : Option Rat
  fat : Option Rat
  fiber : Option Rat
  sugar : Option Rat
  sodium : Option Rat
  saturated_fat : Option Rat
  cholesterol : Option Rat
  dietary_tags : Option String
  allergens : Option String
deriving DecidableEq

/-- `MatchResult` (src/matcher.py lines 13-26).  Every score increment in
the source is one of the integers 20, 30, 10, so the float score is exactly
a natural number; the `match_reasons` strings are presentation-only and are
not modelled. -/
structure MatchResult where
  name : String
  location : String
  period : String
  category : String
  calories : Option Int
  protein : Option Rat
  carbs : Option Rat
  fat : Option Rat
  dietary_tags : List String
  score : Nat
deriving DecidableEq

/-- Python `x or ""` on an optional string (both `None` and `""` give `""`). -/
def orEmptyS : Option String → String
  | some s => s
  | none => ""

/-- Points for one entry of the `nutrition_filters` dictionary, following
the comparison branches of `MenuMatcher._score_item` (lines 156-165): the
value must be non-null and the comparison must hold. -/
def cmpPts (filt : Option (NutOp × Int)) (value : Option Rat) : Nat :=
  match filt, value with
  | some (op, t), some v =>
    match op with
    | NutOp.ge => if (t : Rat) ≤ v then 20 else 0
    | NutOp.le => if v ≤ (t : Rat) then 20 else 0
  | _, _ => 0

def ratOfInt : Option Int → Option Rat
  | some n => some ((n : Rat))
  | none => none

/-- Food-keyword points of `_score_item`: +20 for every entry of the parsed
keyword list found in the lower-cased name or description. -/
def keywordPts (fks : List String) (nameL descL : List Char) : Nat :=
  fks.foldl (fun s kw => if hasSub kw.toList nameL || hasSub kw.toList descL then s + 20 else s) 0

/-- Dietary points of `_score_item`: +30 per parsed tag present in the
item's comma-split tag list. -/
def dietaryPts (dfs : List String) (tags : List String) : Nat :=
  dfs.foldl (fun s tag => if tags.contains tag then s + 30 else s) 0

/-- Period points of `_score_item` (`if parsed["period"] and
item.get("period") == parsed["period"]`; an empty string is falsy). -/
def periodPts (pq : Option String) (itemPeriod : String) : Nat :=
  match pq with
  | some p => if p ≠ "" ∧ itemPeriod = p then 10 else 0
  | none => 0

/-- Nutrition points of `_score_item`: the dictionary is iterated keywise,
so its contribution is the sum of the per-nutrient points. -/
def nutritionPts (nf : NutFilters) (item : MenuRow) : Nat :=
  cmpPts nf.protein item.protein + cmpPts nf.calories (ratOfInt item.calories) +
    cmpPts nf.carbs item.carbs + cmpPts nf.fat item.fat

/-- Total score of `MenuMatcher._score_item` (src/matcher.py lines 130-167). -/
def scoreItem (item : MenuRow) (p : ParsedQuery) : Nat :=
  keywordPts p.food_keywords (lowerOf item.name) (lowerOf (orEmptyS item.description)) +
    dietaryPts p.dietary_filters ((orEmptyS item.dietary_tags).splitOn ",") +
    periodPts p.period item.period +
    nutritionPts p.nutrition_filters item

/-- `row["dietary_tags"].split(",") if row["dietary_tags"] else []`. -/
def splitTags : Option String → List String
  | some s => if s = "" then [] else s.splitOn ","
  | none => []

/-- Construction of a `MatchResult` from a row and its score
(src/matcher.py lines 221-233). -/
def mkResult (r : MenuRow) (s : Nat) : MatchResult :=
  { name := r.name, location := r.location, period := r.period, category := r.category,
    calories := r.calories, protein := r.protein, carbs := r.carbs, fat := r.fat,
    dietary_tags := splitTags r.dietary_tags, score := s }

/-- `SELECT MAX(date) FROM menu_items`: `NULL` (`none`) on an empty table. -/
def maxDate (store : List MenuRow) : Option String :=
  store.foldl
    (fun acc r =>
      match acc with
      | none => some r.date
      | some d => if d < r.date then some r.date else some d)
    none

/-- Date resolution of `MenuMatcher.search`: an explicit argument wins,
otherwise the latest date in the store. -/
def matcherResolveDate (dateArg : Option String) (store : List MenuRow) : Option String :=
  match dateArg with
  | some d => some d
  | none => maxDate store

/-- `WHERE mi.date = ?`: comparing with SQL `NULL` selects no rows. -/
def matcherDateRows (store : List MenuRow) (d : Option String) : List MenuRow :=
  match d with
  | none => []
  | some dd => store.filter (fun r => r.date == dd)

/-- Rows fetched by `MenuMatcher.search`: date filter plus the optional
`AND mi.period = ?` filter when a period was parsed (truthy). -/
def matcherRows (store : List MenuRow) (d : Option String) (pq : Option String) : List MenuRow :=
  let rows := matcherDateRows store d
  match pq with
  | some p => if p = "" then rows else rows.filter (fun r => r.period == p)
  | none => rows

/-- The scored, positively-matching results of `MenuMatcher.search` in
fetch order (lines 214-233): rows scoring 0 are discarded. -/
def matcherScored (prompt : String) (dateArg : Option String) (store : List MenuRow) :
    List MatchResult :=
  let parsed := parsePrompt prompt
  (matcherRows store (matcherResolveDate dateArg store) parsed.period).filterMap
    (fun r => let s := scoreItem r parsed; if 0 < s then some (mkResult r s) else none)

/-- Stable descending insertion step: `x` goes before the first element
whose score is not larger, so elements placed before `x` strictly beat it. -/
def insDesc (x : MatchResult) : List MatchResult → List MatchResult
  | [] => [x]
  | y :: ys => if y.score ≤ x.score then x :: y :: ys else y :: insDesc x ys

/-- Stable descending sort by score, modelling Python's stable
`list.sort(key=lambda x: x.score, reverse=True)`. -/
def sortDesc : List MatchResult → List MatchResult
  | [] => []
  | x :: xs => insDesc x (sortDesc xs)

/-- `MenuMatcher.search` (src/matcher.py lines 169-238). -/
def matcherSearch (prompt : String) (limit : Nat) (dateArg : Option String)
    (store : List MenuRow) : List MatchResult :=
  (sortDesc (matcherScored prompt dateArg store)).take limit

/-- `COMPONENT_CATEGORIES` (src/tools.py lines 202-220). -/
def COMPONENT_CATEGORIES : List String :=
  [ "fresh 52 salad bar", "salad bar", "salad bar toppings", "salad bar dressings",
    "salad bar protein", "salad bar greens", "salad bar fruit and yogurt",
    "global fruit & yogurt",
    "deli", "deli sauce", "deli veg", "deli cheese", "create deli", "ny deli",
    "taqueria toppings", "taqueria base", "taqueria protein",
    "innovate", "grill / flame", "grill", "create",
    "pom and honey choose your side", "pom and honey choose your protein",
    "pom and honey grain and salad", "pom and honey sauce",
    "street eats choose your side", "street eats choose your protein",
    "paper lantern sides", "paper lantern starch", "paper lantern protein",
    "culture corner starch", "culture corner side",
    "root and seeds", "plant based", "plant\x27d" ]

/-- `ENTREE_CATEGORIES` (src/tools.py lines 223-235); note that
`"paper lantern protein"` also appears in `COMPONENT_CATEGORIES`. -/
def ENTREE_CATEGORIES : List String :=
  [ "true burger", "burger 212", "burger 212 grill", "crave nyu",
    "cluckstein", "500 degrees pizza", "al forno pizza", "personal pizza",
    "pizza station", "pizza/alforno", "quesadilla/burrito/slider",
    "taqueria/tots/mac&cheese", "homestyle", "cucina entree", "cucina pasta",
    "halal station", "halal", "composed salad / sandwiches",
    "fresh 52 composed salads", "root and seeds composed", "breakfast sandwiches",
    "kimmel lunch", "kimmel dinner", "fresh 140", "fresh 140 sandwich",
    "vedgecraft", "waffle stein", "guacamole toast", "soup of the day",
    "the soup bowl", "soup bowl", "soup", "spoonfuls",
    "culture corner entree", "paper lantern protein" ]

/-- Substrings of the component fallback heuristic (src/tools.py line 248). -/
def COMPONENT_HEURISTICS : List String :=
  ["choose your", "bar", "toppings", "sides", "sauce"]

/-- `_classify_item_type` (src/tools.py lines 238-250). -/
def classifyItemType (category : String) : String :=
  let catL := lowerStr category
  if COMPONENT_CATEGORIES.contains catL then "component"
  else if ENTREE_CATEGORIES.contains catL then "entree"
  else if COMPONENT_HEURISTICS.any (fun x => hasSub x.toList catL.toList) then "component"
  else "other"

/-- Argument record of `tools.search_menu` (src/tools.py lines 361-372),
with the source defaults. -/
structure SearchArgs where
  keywords : Option (List String) := none
  period : Option String := none
  location : Option String := none
  dietary_tags : Option (List String) := none
  min_protein : Option Rat := none
  max_calories : Option Int := none
  min_calories : Option Int := none
  max_sodium : Option Rat := none
  min_fiber : Option Rat := none
  max_sugar : Option Rat := none
  limit : Nat := 20
deriving DecidableEq

/-- Output row of `tools.search_menu` (lines 499-515). -/
structure MenuItemOut where
  name : String
  location : String
  period : String
  category : String
  item_type : String
  calories : Option Int
  protein : Option Rat
  carbs : Option Rat
  fat : Option Rat
  fiber : Option Rat
  sugar : Option Rat
  sodium : Option Rat
  saturated_fat : Option Rat
  cholesterol : Option Rat
  dietary_tags : List String
deriving DecidableEq

/-- Period filter of `search_menu` (lines 421-427): skipped for a falsy
period; `Dinner` also admits `Supper`; otherwise case-insensitive equality. -/
def sqlPeriodOk (pa : Option String) (r : MenuRow) : Bool :=
  match pa with
  | none => true
  | some p =>
    if p = "" then true
    else if lowerStr p = "dinner" then
      lowerStr r.period == "dinner" || lowerStr r.period == "supper"
    else lowerStr r.period == lowerStr p

/-- Location filter (lines 429-432): case-insensitive `LIKE '%loc%'`. -/
def sqlLocationOk (la : Option String) (r : MenuRow) : Bool :=
  match la with
  | none => true
  | some loc => if loc = "" then true else hasSub (lowerOf loc) (lowerOf r.location)

/-- Keyword filter (lines 434-440): OR of case-insensitive name matches,
skipped for a falsy (absent or empty) list. -/
def sqlKeywordsOk (ka : Option (List String)) (r : MenuRow) : Bool :=
  match ka with
  | some (k :: ks) => (k :: ks).any (fun kw => hasSub (lowerOf kw) (lowerOf r.name))
  | _ => true

/-- One dietary tag test (lines 442-448): `LOWER(NULL) LIKE x` is `NULL`,
so a row with no tags never passes. -/
def sqlTagOk (r : MenuRow) (tag : String) : Bool :=
  match r.dietary_tags with
  | none => false
  | some s => hasSub (lowerOf tag) (lowerOf s)

/-- Dietary filter: AND of the individual tag tests, skipped when falsy. -/
def sqlTagsOk (ta : Option (List String)) (r : MenuRow) : Bool :=
  match ta with
  | some (t :: ts) => (t :: ts).all (sqlTagOk r)
  | _ => true

/-- `mi.protein >= ?` (SQL comparison with `NULL` selects nothing). -/
def sqlMinProtOk (mp : Option Rat) (r : MenuRow) : Bool :=
  match mp with
  | none => true
  | some m => match r.protein with
    | none => false
    | some v => decide (m ≤ v)

/-- `mi.calories <= ?`. -/
def sqlMaxCalOk (mc : Option Int) (r : MenuRow) : Bool :=
  match mc with
  | none => true
  | some m => match r.calories with
    | none => false
    | some v => decide (v ≤ m)

/-- `mi.calories >= ?`. -/
def sqlMinCalOk (mc : Option Int) (r : MenuRow) : Bool :=
  match mc with
  | none => true
  | some m => match r.calories with
    | none => false
    | some v => decide (m ≤ v)

/-- `mi.sodium IS NOT NULL AND mi.sodium <= ?`. -/
def sqlMaxSodiumOk (ms : Option Rat) (r : MenuRow) : Bool :=
  match ms with
  | none => true
  | some m => match r.sodium with
    | none => false
    | some v => decide (v ≤ m)

/-- `mi.fiber IS NOT NULL AND mi.fiber >= ?`. -/
def sqlMinFiberOk (mf : Option Rat) (r : MenuRow) : Bool :=
  match mf with
  | none => true
  | some m => match r.fiber with
    | none => false
    | some v => decide (m ≤ v)

/-- `mi.sugar IS NOT NULL AND mi.sugar <= ?`. -/
def sqlMaxSugarOk (ms : Option Rat) (r : MenuRow) : Bool :=
  match ms with
  | none => true
  | some m => match r.sugar with
    | none => false
    | some v => decide (v ≤ m)

/-- Conjunction of all `WHERE` clauses of `search_menu` for the resolved
date. -/
def sqlWhereOk (a : SearchArgs) (d : String) (r : MenuRow) : Bool :=
  r.date == d && sqlPeriodOk a.period r && sqlLocationOk a.location r &&
    sqlKeywordsOk a.keywords r && sqlTagsOk a.dietary_tags r &&
    sqlMinProtOk a.min_protein r && sqlMaxCalOk a.max_calories r &&
    sqlMinCalOk a.min_calories r && sqlMaxSodiumOk a.max_sodium r &&
    sqlMinFiberOk a.min_fiber r && sqlMaxSugarOk a.max_sugar r

/-- Rows passing the `WHERE` clauses; an empty store resolves the date to
`NULL` and selects nothing. -/
def sqlFiltered (store : List MenuRow) (a : SearchArgs) : List MenuRow :=
  match maxDate store with
  | none => []
  | some d => store.filter (sqlWhereOk a d)

/-- Truthiness of `min_protein` for the `ORDER BY` choice (line 476):
`0.0` is falsy. -/
def minProteinTruthy (a : SearchArgs) : Bool :=
  match a.min_protein with
  | some v => decide (v ≠ 0)
  | none => false

/-- Ordering with SQL `NULL` below every value: `none` is least. -/
def optRatLe : Option Rat → Option Rat → Bool
  | none, _ => true
  | some _, none => false
  | some a, some b => decide (a ≤ b)

def optIntLe : Option Int → Option Int → Bool
  | none, _ => true
  | some _, none => false
  | some a, some b => decide (a ≤ b)

/-- `ORDER BY mi.protein DESC` or `ORDER BY mi.calories ASC` (lines
475-479), as a before-relation between rows. -/
def orderLe (byProtein : Bool) (x y : MenuRow) : Bool :=
  if byProtein then optRatLe y.protein x.protein else optIntLe x.calories y.calories

/-- Stable insertion step for the row ordering. -/
def insRow (le : MenuRow → MenuRow → Bool) (x : MenuRow) : List MenuRow → List MenuRow
  | [] => [x]
  | y :: ys => if le x y then x :: y :: ys else y :: insRow le x ys

/-- Deterministic (stable) sort standing for the SQL `ORDER BY`. -/
def sortRows (le : MenuRow → MenuRow → Bool) : List MenuRow → List MenuRow
  | [] => []
  | x :: xs => insRow le x (sortRows le xs)

/-- Rows produced by the SQL query of `search_menu`: filtered, ordered and
cut to `LIMIT limit` (lines 475-484). -/
def sqlRows (store : List MenuRow) (a : SearchArgs) : List MenuRow :=
  (sortRows (orderLe (minProteinTruthy a)) (sqlFiltered store a)).take a.limit

/-- Key used by the deduplication of `search_menu` (line 492). -/
def rowKey (r : MenuRow) : String × String × String :=
  (r.name, r.location, r.period)

def itemKey (it : MenuItemOut) : String × String × String :=
  (it.name, it.location, it.period)

/-- Formatting of one row into the result dictionary (lines 497-515),
including the derived `item_type`. -/
def formatRow (r : MenuRow) : MenuItemOut :=
  { name := r.name, location := r.location, period := r.period, category := r.category,
    item_type := classifyItemType r.category,
    calories := r.calories, protein := r.protein, carbs := r.carbs, fat := r.fat,
    fiber := r.fiber, sugar := r.sugar, sodium := r.sodium,
    saturated_fat := r.saturated_fat, cholesterol := r.cholesterol,
    dietary_tags := splitTags r.dietary_tags }

/-- The `seen`-set deduplication loop of `search_menu` (lines 488-515):
a row whose key was already seen is skipped, otherwise it is formatted and
its key recorded. -/
def dedupRows : List MenuRow → List (String × String × String) → List MenuItemOut
  | [], _ => []
  | r :: rs, seen =>
    if rowKey r ∈ seen then dedupRows rs seen
    else formatRow r :: dedupRows rs (rowKey r :: seen)

/-- `tools.search_menu` (src/tools.py lines 361-517) over a given store. -/
def search_menu (store : List MenuRow) (a : SearchArgs) : List MenuItemOut :=
  dedupRows (sqlRows store a) []

/-- Argument record of `tools.get_complete_meals` (lines 570-581), with the
source defaults (`min_calories` defaults to 250). -/
structure MealArgs where
  location : Option String := none
  period : Option String := none
  dietary_tags : Option (List String) := none
  min_protein : Option Rat := none
  max_calories : Option Int := none
  min_calories : Int := 250
  max_sodium : Option Rat := none
  min_fiber : Option Rat := none
  max_sugar : Option Rat := none
  limit : Nat := 15
deriving DecidableEq

/-- The calorie test of the entree filter (line 619):
`item.get("calories") and item["calories"] >= min_calories`, where a null
or zero calorie value is falsy. -/
def calorieGate (minCal : Int) (c : Option Int) : Bool :=
  match c with
  | none => false
  | some v => decide (v ≠ 0) && decide (minCal ≤ v)

/-- `tools.get_complete_meals` (src/tools.py lines 570-622): a
`search_menu` call with triple limit, then the entree/calorie filter and
the final truncation. -/
def get_complete_meals (store : List MenuRow) (m : MealArgs) : List MenuItemOut :=
  let all_items := search_menu store
    { keywords := none, period := m.period, location := m.location,
      dietary_tags := m.dietary_tags, min_protein := m.min_protein,
      max_calories := m.max_calories, min_calories := some m.min_calories,
      max_sodium := m.max_sodium, min_fiber := m.min_fiber,
      max_sugar := m.max_sugar, limit := m.limit * 3 }
  (all_items.filter (fun it => it.item_type == "entree" && calorieGate m.min_calories it.calories)).take m.limit

/-- Result of one tool invocation at the dispatch boundary: either a
serialized payload or the structured error object `\x7b"error": message\x7d`
that `execute_tool_call` returns on any failure. -/
inductive ToolOutcome where
  | ok (payload : String)
  | err (message : String)
deriving DecidableEq

/-- `ai_coach.execute_tool_call` (src/ai_coach.py lines 140-150).  A tool
table entry is a function from the (serialized) argument dictionary to
`Except`: a Python exception raised inside the tool function (bad
argument, store failure, ...) is modelled as an `Except.error`, which the
`try/except` of the source converts into the error payload. -/
def execute_tool_call (table : String → Option (String → Except String String))
    (name : String) (args : String) : ToolOutcome :=
  match table name with
  | none => ToolOutcome.err ("Unknown tool: " ++ name)
  | some f =>
    match f args with
    | Except.ok v => ToolOutcome.ok v
    | Except.error e => ToolOutcome.err e

/-- Modelled from the spec (claim C2, amended): classification by ordered
cases — the component allow-list is checked before the entree allow-list,
so the component list wins on the entry `"paper lantern protein"` that
appears in both; then the substring heuristics on the lower-cased
category, then `"other"`. -/
def classifySpecC2 (category : String) : String :=
  let catL := lowerStr category
  if COMPONENT_CATEGORIES.contains catL then "component"
  else if ENTREE_CATEGORIES.contains catL then "entree"
  else if COMPONENT_HEURISTICS.any (fun x => hasSub x.toList catL.toList) then "component"
  else "other"

/-- Modelled from the spec (claim C4): the meal period whose literal occurs
first left-to-right in the lower-cased text. -/
def firstLiteralPeriod : List Char → Option String
  | [] => none
  | l@(_ :: rest) =>
    if leadsWith ("breakfast".toList) l then some ("Breakfast")
    else if leadsWith ("lunch".toList) l then some ("Lunch")
    else if leadsWith ("dinner".toList) l then some ("Dinner")
    else firstLiteralPeriod rest

/-- Satisfaction of one nutrition filter as claim C6 states it: the value
is present (non-null) and the comparison holds. -/
def nutSatisfiedB (filt : Option (NutOp × Int)) (value : Option Rat) : Bool :=
  match filt, value with
  | some (op, t), some v =>
    match op with
    | NutOp.ge => decide ((t : Rat) ≤ v)
    | NutOp.le => decide (v ≤ (t : Rat))
  | _, _ => false

/-- Number of satisfied nutrition filters of a parsed query on an item. -/
def satCount (nf : NutFilters) (item : MenuRow) : Nat :=
  (if nutSatisfiedB nf.protein item.protein then 1 else 0) +
    (if nutSatisfiedB nf.calories (ratOfInt item.calories) then 1 else 0) +
    (if nutSatisfiedB nf.carbs item.carbs then 1 else 0) +
    (if nutSatisfiedB nf.fat item.fat then 1 else 0)

/-- Fixture row: a salad-bar item whose name matches the keyword `salad`. -/
def gardenSaladRow : MenuRow :=
  { date := "2025-01-15", name := "Garden Salad", location := "The Marketplace at Kimmel",
    period := "Lunch", category := "fresh 52 salad bar", description := none,
    calories := some 120, protein := some 3, carbs := none, fat := none,
    fiber := none, sugar := none, sodium := none, saturated_fat := none,
    cholesterol := none, dietary_tags := none, allergens := none }

/-- Fixture row: an entree-category item with 650 calories. -/
def entreeRowFix : MenuRow :=
  { date := "2025-01-15", name := "Classic Cheeseburger", location := "Upstein",
    period := "Lunch", category := "true burger", description := none,
    calories := some 650, protein := some 35, carbs := some 40, fat := some 30,
    fiber := none, sugar := none, sodium := some 900, saturated_fat := none,
    cholesterol := none, dietary_tags := none, allergens := none }

/-- Fixture tool table with a single known tool. -/
def toolTableFix : String → Option (String → Except String String) :=
  fun n => if n = "list_locations" then some (fun _ => Except.ok ("[]")) else none

theorem foldl_if20 (p : String → Bool) (l : List String) (a : Nat) :
    List.foldl (fun s kw => if p kw then s + 20 else s) a l = a + 20 * l.countP p := by
  induction l generalizing a with
  | nil => simp
  | cons k ks ih =>
    by_cases hk : p k
    · simp [List.foldl_cons, hk, ih, List.countP_cons]
      ring
    · simp [List.foldl_cons, hk, ih, List.countP_cons]

theorem keywordPts_eq_countP (fks : List String) (nameL descL : List Char) :
    keywordPts fks nameL descL =
      20 * fks.countP (fun kw => hasSub kw.toList nameL || hasSub kw.toList descL) := by
  simpa [keywordPts] using
    foldl_if20 (fun kw => hasSub kw.toList nameL || hasSub kw.toList descL) fks 0

theorem cmpPts_eq_satisfied (filt : Option (NutOp × Int)) (v : Option Rat) :
    cmpPts filt v = 20 * (if nutSatisfiedB filt v then 1 else 0) := by
  match filt, v with
  | none, _ => rfl
  | some (op, t), none => cases op <;> rfl
  | some (op, t), some x =>
    cases op
    · by_cases h : (t : Rat) ≤ x <;> simp [cmpPts, nutSatisfiedB, h]
    · by_cases h : x ≤ (t : Rat) <;> simp [cmpPts, nutSatisfiedB, h]

theorem mem_insDesc {a x : MatchResult} : ∀ {l : List MatchResult},
    a ∈ insDesc x l → a = x ∨ a ∈ l := by
  intro l
  induction l with
  | nil => simp [insDesc]
  | cons y ys ih =>
    by_cases h : y.score ≤ x.score
    · simp [insDesc, h]
    · simp only [insDesc, if_neg h, List.mem_cons]
      rintro (rfl | hmem)
      · tauto
      · rcases ih hmem with h1 | h2 <;> tauto

theorem insDesc_pairwise {x : MatchResult} : ∀ {l : List MatchResult},
    List.Pairwise (fun a b => b.score ≤ a.score) l →
    List.Pairwise (fun a b => b.score ≤ a.score) (insDesc x l) := by
  intro l
  induction l with
  | nil => intro _; simp [insDesc]
  | cons y ys ih =>
    intro hp
    rcases List.pairwise_cons.mp hp with ⟨hy, hys⟩
    by_cases h : y.score ≤ x.score
    · rw [insDesc, if_pos h]
      refine List.pairwise_cons.mpr ⟨?_, hp⟩
      intro b hb
      rcases List.mem_cons.mp hb with rfl | hbys
      · exact h
      · exact le_trans (hy b hbys) h
    · rw [insDesc, if_neg h]
      refine List.pairwise_cons.mpr ⟨?_, ih hys⟩
      intro b hb
      rcases mem_insDesc hb with rfl | hbys
      · exact le_of_not_le h
      · exact hy b hbys

theorem sortDesc_pairwise : ∀ l : List MatchResult,
    List.Pairwise (fun a b => b.score ≤ a.score) (sortDesc l)
  | [] => List.Pairwise.nil
  | _ :: xs => insDesc_pairwise (sortDesc_pairwise xs)

theorem mem_sortDesc {a : MatchResult} : ∀ {l : List MatchResult}, a ∈ sortDesc l → a ∈ l := by
  intro l
  induction l with
  | nil => simp [sortDesc]
  | cons x xs ih =>
    intro h
    rcases mem_insDesc (l := sortDesc xs) h with rfl | hmem
    · exact List.mem_cons_self _ _
    · exact List.mem_cons_of_mem _ (ih hmem)

theorem insDesc_filter_score (x : MatchResult) (s : Nat) : ∀ l : List MatchResult,
    (insDesc x l).filter (fun r => r.score == s) =
      if x.score = s then x :: l.filter (fun r => r.score == s)
      else l.filter (fun r => r.score == s) := by
  intro l
  induction l with
  | nil =>
    by_cases hx : x.score = s <;> simp [insDesc, List.filter_cons, hx]
  | cons y ys ih =>
    by_cases h : y.score ≤ x.score
    · rw [insDesc, if_pos h]
      by_cases hx : x.score = s <;> simp [List.filter_cons, hx]
    · rw [insDesc, if_neg h]
      rw [List.filter_cons, List.filter_cons]
      by_cases hy : y.score = s
      · by_cases hx : x.score = s
        · exact absurd (le_of_eq (hy.trans hx.symm)) h
        · simp [hy, hx, ih]
      · by_cases hx : x.score = s <;> simp [hy, hx, ih]

theorem sortDesc_filter_score (s : Nat) : ∀ l : List MatchResult,
    (sortDesc l).filter (fun r => r.score == s) = l.filter (fun r => r.score == s) := by
  intro l
  induction l with
  | nil => rfl
  | cons x xs ih =>
    rw [sortDesc, insDesc_filter_score, List.filter_cons]
    by_cases hx : x.score = s <;> simp [hx, ih]

theorem itemKey_formatRow (r : MenuRow) : itemKey (formatRow r) = rowKey r := rfl

theorem mem_dedupRows_key_notin {it : MenuItemOut} :
    ∀ (rs : List MenuRow) (seen : List (String × String × String)),
    it ∈ dedupRows rs seen → itemKey it ∉ seen := by
  intro rs
  induction rs with
  | nil => intro seen h; simp [dedupRows] at h
  | cons r rs ih =>
    intro seen h
    by_cases hs : rowKey r ∈ seen
    · rw [dedupRows, if_pos hs] at h
      exact ih seen h
    · rw [dedupRows, if_neg hs] at h
      rcases List.mem_cons.mp h with rfl | hmem
      · rw [itemKey_formatRow]; exact hs
      · intro hin
        exact ih (rowKey r :: seen) hmem (List.mem_cons_of_mem _ hin)

theorem dedupRows_pairwise :
    ∀ (rs : List MenuRow) (seen : List (String × String × String)),
    List.Pairwise (fun x y => itemKey x ≠ itemKey y) (dedupRows rs seen) := by
  intro rs
  induction rs with
  | nil => intro seen; exact List.Pairwise.nil
  | cons r rs ih =>
    intro seen
    by_cases hs : rowKey r ∈ seen
    · rw [dedupRows, if_pos hs]; exact ih seen
    · rw [dedupRows, if_neg hs]
      refine List.pairwise_cons.mpr ⟨?_, ih (rowKey r :: seen)⟩
      intro b hb
      have hnot := mem_dedupRows_key_notin rs (rowKey r :: seen) hb
      rw [itemKey_formatRow]
      intro he
      exact hnot (he ▸ List.mem_cons_self _ _)

theorem dedupRows_filter_key :
    ∀ (rs : List MenuRow) (seen : List (String × String × String))
      (k : String × String × String),
    (dedupRows rs seen).filter (fun it => decide (itemKey it = k)) =
      if k ∈ seen then []
      else ((rs.filter (fun r => decide (rowKey r = k))).take 1).map formatRow := by
  intro rs
  induction rs with
  | nil =>
    intro seen k
    by_cases hk : k ∈ seen <;> simp [dedupRows, hk]
  | cons r rs ih =>
    intro seen k
    by_cases hs : rowKey r ∈ seen
    · rw [dedupRows, if_pos hs, ih seen k, List.filter_cons]
      by_cases hk : k ∈ seen
      · simp [hk]
      · have hne : ¬ (rowKey r = k) := fun he => hk (he ▸ hs)
        simp [hk, hne]
    · rw [dedupRows, if_neg hs, List.filter_cons, List.filter_cons]
      by_cases hrk : rowKey r = k
      · have hk : k ∉ seen := fun hin => hs (hrk ▸ hin)
        have hk2 : k ∈ rowKey r :: seen := hrk ▸ List.mem_cons_self _ _
        rw [ih (rowKey r :: seen) k, if_pos hk2, if_neg hk]
        simp [itemKey_formatRow, hrk]
      · have hrk2 : ¬ k = rowKey r := fun h => hrk h.symm
        rw [ih (rowKey r :: seen) k]
        by_cases hk : k ∈ seen
        · have hk2 : k ∈ rowKey r :: seen := List.mem_cons_of_mem _ hk
          simp [itemKey_formatRow, hrk, hk, hk2]
        · have hk2 : k ∉ rowKey r :: seen := by
            intro h
            rcases List.mem_cons.mp h with he | h2
            · exact hrk2 he
            · exact hk h2
          simp [itemKey_formatRow, hrk, hk, hk2]

theorem mem_matcherScored_pos {r : MatchResult} {prompt : String} {dateArg : Option String}
    {store : List MenuRow} (h : r ∈ matcherScored prompt dateArg store) : 0 < r.score := by
  unfold matcherScored at h
  rcases List.mem_filterMap.mp h with ⟨a, _, heq⟩
  simp only at heq
  split at heq
  · rename_i hpos
    cases heq
    exact hpos
  · cases heq

/-- C1: false as stated.  The parser registers one entry per food category
whose synonym list contains a matching keyword, so the keyword string
`"salad"` (listed under both the `salad` and the `healthy` categories) is
appended twice for the prompt `"salad"`, and the scorer then awards +20 per
list entry: a single distinct matched keyword contributes +40 to this item
while every other score component is zero. -/
theorem c1_counterexample :
    (parsePrompt "salad").food_keywords = ["salad", "salad"] ∧
    (parsePrompt "salad").dietary_filters = [] ∧
    (parsePrompt "salad").period = none ∧
    (parsePrompt "salad").nutrition_filters = {} ∧
    scoreItem gardenSaladRow (parsePrompt "salad") = 40 := by
  refine ⟨by decide, by decide, by decide, by decide, by decide⟩

/-- C1 (amended): the relevance scorer awards +20 per occurrence of a
keyword in the parsed keyword list that matches the item's name or
description, and the parsed list holds one occurrence of each synonym per
food category whose list contains it and that is found in the prompt — so
a keyword shared by k matching categories contributes k·20, not at most
+20. -/
theorem c1_amended_keyword_scoring (prompt : String) (item : MenuRow) :
    scoreItem item (parsePrompt prompt) =
      20 * ((parsePrompt prompt).food_keywords.countP
          (fun kw => hasSub kw.toList (lowerOf item.name)
            || hasSub kw.toList (lowerOf (orEmptyS item.description)))) +
        dietaryPts (parsePrompt prompt).dietary_filters
          ((orEmptyS item.dietary_tags).splitOn ",") +
        periodPts (parsePrompt prompt).period item.period +
        nutritionPts (parsePrompt prompt).nutrition_filters item ∧
    (parsePrompt prompt).food_keywords =
      FOOD_KEYWORDS.flatMap
        (fun p => p.2.filter (fun kw => hasSub kw.toList (lowerOf prompt))) := by
  constructor
  · rw [scoreItem, keywordPts_eq_countP]
  · rfl

/-- C2: false as stated on one input.  The category string
`"paper lantern protein"` is listed in both allow-lists; the component list
is checked first, so `classify` returns `"component"` although the
lower-cased category is in the entree allow-list, where the claim promises
`"entree"`. -/
theorem c2_counterexample :
    ENTREE_CATEGORIES.contains (lowerStr "Paper Lantern Protein") = true ∧
    classifyItemType "Paper Lantern Protein" = "component" ∧
    ("component" : String) ≠ "entree" := by
  refine ⟨by decide, by decide, by decide⟩

/-- C2 (amended): classification proceeds by ordered cases — component
allow-list first (so it wins on the overlapping entry), then the entree
allow-list, then the substring heuristics, then `"other"` — and the three
fixture cases hold. -/
theorem c2_amended_classify :
    (∀ category : String, classifyItemType category = classifySpecC2 category) ∧
    classifyItemType "Salad Bar Toppings" = "component" ∧
    classifyItemType "True Burger" = "entree" ∧
    classifyItemType "Random Station XYZ" = "other" := by
  refine ⟨fun category => rfl, by decide, by decide, by decide⟩

/-- C3: every item returned by `get_complete_meals` has
`item_type = "entree"` and a non-null calorie value at least the configured
floor `min_calories` (default 250). -/
theorem c3_complete_meals_entree_calories (store : List MenuRow) (m : MealArgs)
    (it : MenuItemOut) (h : it ∈ get_complete_meals store m) :
    it.item_type = "entree" ∧ ∃ c : Int, it.calories = some c ∧ m.min_calories ≤ c := by
  unfold get_complete_meals at h
  have h2 := List.mem_of_mem_take h
  rcases List.mem_filter.mp h2 with ⟨-, hp⟩
  rcases Bool.and_eq_true_iff.mp hp with ⟨ht, hc⟩
  refine ⟨by simpa using ht, ?_⟩
  cases hcal : it.calories with
  | none => rw [hcal] at hc; simp [calorieGate] at hc
  | some v =>
    rw [hcal] at hc
    rw [calorieGate.eq_def] at hc
    rcases Bool.and_eq_true_iff.mp hc with ⟨-, hge⟩
    exact ⟨v, rfl, of_decide_eq_true hge⟩

/-- C3 witness: on a one-row store holding an entree-category burger with
650 calories, the returned item satisfies the guarantee. -/
theorem c3_witness :
    (formatRow entreeRowFix).item_type = "entree" ∧
    ∃ c : Int, (formatRow entreeRowFix).calories = some c ∧ (250 : Int) ≤ c :=
  c3_complete_meals_entree_calories [entreeRowFix] {} (formatRow entreeRowFix) (by decide)

/-- C4: false as stated.  The parser tests the literals by containment in
the fixed order breakfast, lunch, dinner — not by leftmost occurrence — so
for `"dinner and breakfast"` it sets `Breakfast` although the literal
occurring first left-to-right is `"dinner"`. -/
theorem c4_counterexample :
    (parsePrompt "dinner and breakfast").period = some ("Breakfast") ∧
    firstLiteralPeriod (lowerOf "dinner and breakfast") = some ("Dinner") ∧
    some ("Breakfast") ≠ some ("Dinner") := by
  refine ⟨by decide, by decide, by decide⟩

/-- C4 (amended): the parser sets at most one meal period; when several
literals are contained in the text the one chosen follows the fixed
priority breakfast over lunch over dinner, regardless of the literals'
positions in the text. -/
theorem c4_amended_period_priority (text : String) :
    ((parsePrompt text).period = none ∨ (parsePrompt text).period = some ("Breakfast") ∨
      (parsePrompt text).period = some ("Lunch") ∨
      (parsePrompt text).period = some ("Dinner")) ∧
    (hasSub ("breakfast".toList) (lowerOf text) = true →
      (parsePrompt text).period = some ("Breakfast")) ∧
    (hasSub ("breakfast".toList) (lowerOf text) = false →
      hasSub ("lunch".toList) (lowerOf text) = true →
      (parsePrompt text).period = some ("Lunch")) ∧
    (hasSub ("breakfast".toList) (lowerOf text) = false →
      hasSub ("lunch".toList) (lowerOf text) = false →
      hasSub ("dinner".toList) (lowerOf text) = true →
      (parsePrompt text).period = some ("Dinner")) ∧
    (hasSub ("breakfast".toList) (lowerOf text) = false →
      hasSub ("lunch".toList) (lowerOf text) = false →
      hasSub ("dinner".toList) (lowerOf text) = false →
      (parsePrompt text).period = none) := by
  have hp : (parsePrompt text).period =
      (if hasSub ("breakfast".toList) (lowerOf text) then some ("Breakfast")
       else if hasSub ("lunch".toList) (lowerOf text) then some ("Lunch")
       else if hasSub ("dinner".toList) (lowerOf text) then some ("Dinner")
       else none) := rfl
  rw [hp]
  cases hb : hasSub ("breakfast".toList) (lowerOf text) with
  | false =>
    cases hl : hasSub ("lunch".toList) (lowerOf text) with
    | false =>
      cases hd : hasSub ("dinner".toList) (lowerOf text) with
      | false => simp
      | true => simp
    | true => simp
  | true => simp

/-- C4 witness: concrete prompts exercising the amended priority rules. -/
theorem c4_witness :
    (parsePrompt "team lunch").period = some ("Lunch") ∧
    (parsePrompt "pasta dinner").period = some ("Dinner") :=
  ⟨(c4_amended_period_priority "team lunch").2.2.1 (by decide) (by decide),
   (c4_amended_period_priority "pasta dinner").2.2.2.1 (by decide) (by decide) (by decide)⟩

/-- C5: the numeric phrase extractions run last and overwrite any generic
pattern for the same nutrient key: a leftmost regex match of
`under N cal(ories)` makes the calorie filter exactly (≤, N), and a
leftmost match of `N g(rams) (of) protein` makes the protein filter exactly
(≥, N). -/
theorem c5_numeric_overrides (prompt : String) :
    (∀ n : Nat, underCalSearch (lowerOf prompt) = some n →
      (parsePrompt prompt).nutrition_filters.calories = some (NutOp.le, (n : Int))) ∧
    (∀ n : Nat, proteinSearch (lowerOf prompt) = some n →
      (parsePrompt prompt).nutrition_filters.protein = some (NutOp.ge, (n : Int))) := by
  constructor
  · intro n h
    show (parsePrompt prompt).nutrition_filters.calories = some (NutOp.le, (n : Int))
    unfold parsePrompt
    simp only [h]
    cases hps : proteinSearch (lowerOf prompt) <;> simp [hps]
  · intro n h
    unfold parsePrompt
    simp only [h]

/-- C5 witness: a prompt where the generic low-calorie and high-protein
patterns fire and the numeric phrases overwrite them. -/
theorem c5_witness :
    (parsePrompt "low calorie high protein meal under 350 cal with 30 g protein").nutrition_filters.calories = some (NutOp.le, 350) ∧
    (parsePrompt "low calorie high protein meal under 350 cal with 30 g protein").nutrition_filters.protein = some (NutOp.ge, 30) :=
  ⟨(c5_numeric_overrides _).1 350 (by decide), (c5_numeric_overrides _).2 30 (by decide)⟩

/-- C6: each nutrition filter contributes exactly +20 when satisfied — the
item's value present and meeting the comparison — so the total score is the
non-nutrition part plus 20 per satisfied filter; a filter over a null value
contributes 0 points; and an item whose score is positive reaches the
result set regardless of null nutrient values. -/
theorem c6_nutrition_scoring (item : MenuRow) (p : ParsedQuery) :
    (scoreItem item p =
      keywordPts p.food_keywords (lowerOf item.name) (lowerOf (orEmptyS item.description)) +
        dietaryPts p.dietary_filters ((orEmptyS item.dietary_tags).splitOn ",") +
        periodPts p.period item.period + 20 * satCount p.nutrition_filters item) ∧
    (∀ (op : NutOp) (t : Int), cmpPts (some (op, t)) none = 0) ∧
    (∀ (prompt : String) (dateArg : Option String) (store : List MenuRow) (r : MenuRow),
      r ∈ matcherRows store (matcherResolveDate dateArg store) (parsePrompt prompt).period →
      0 < scoreItem r (parsePrompt prompt) →
      mkResult r (scoreItem r (parsePrompt prompt)) ∈ matcherScored prompt dateArg store) := by
  refine ⟨?_, ?_, ?_⟩
  · rw [scoreItem, nutritionPts, satCount,
      cmpPts_eq_satisfied p.nutrition_filters.protein item.protein,
      cmpPts_eq_satisfied p.nutrition_filters.calories (ratOfInt item.calories),
      cmpPts_eq_satisfied p.nutrition_filters.carbs item.carbs,
      cmpPts_eq_satisfied p.nutrition_filters.fat item.fat]
    ring
  · intro op t
    cases op <;> rfl
  · intro prompt dateArg store r hr hs
    unfold matcherScored
    exact List.mem_filterMap.mpr ⟨r, hr, by simp [hs]⟩

/-- C6 witness: the salad fixture item scores 40 with null carbs and fat
and reaches the scored result set. -/
theorem c6_witness :
    mkResult gardenSaladRow (scoreItem gardenSaladRow (parsePrompt "salad")) ∈
      matcherScored "salad" none [gardenSaladRow] :=
  (c6_nutrition_scoring gardenSaladRow (parsePrompt "salad")).2.2 "salad" none
    [gardenSaladRow] gardenSaladRow (by decide) (by decide)

/-- C7: the matcher search returns the stable descending sort of the
positively scored results cut to `limit`: every returned result has score
greater than 0, the returned list is sorted descending by score, its
length is at most `limit`, and the sorted list preserves the original
fetch order among equal scores. -/
theorem c7_search_ranking (prompt : String) (limit : Nat) (dateArg : Option String)
    (store : List MenuRow) :
    matcherSearch prompt limit dateArg store =
      (sortDesc (matcherScored prompt dateArg store)).take limit ∧
    (∀ r, r ∈ matcherSearch prompt limit dateArg store → 0 < r.score) ∧
    List.Pairwise (fun a b => b.score ≤ a.score) (matcherSearch prompt limit dateArg store) ∧
    (matcherSearch prompt limit dateArg store).length ≤ limit ∧
    (∀ s : Nat, (sortDesc (matcherScored prompt dateArg store)).filter (fun r => r.score == s) =
      (matcherScored prompt dateArg store).filter (fun r => r.score == s)) := by
  refine ⟨rfl, ?_, ?_, ?_, ?_⟩
  · intro r hr
    exact mem_matcherScored_pos (mem_sortDesc (List.mem_of_mem_take hr))
  · exact (sortDesc_pairwise (matcherScored prompt dateArg store)).sublist
      (List.take_sublist _ _)
  · rw [matcherSearch, List.length_take]
    exact min_le_left _ _
  · exact fun s => sortDesc_filter_score s (matcherScored prompt dateArg store)

/-- C7 witness: on the one-row salad store the returned result has a
positive score. -/
theorem c7_witness : 0 < (mkResult gardenSaladRow 40).score :=
  (c7_search_ranking "salad" 10 none [gardenSaladRow]).2.1
    (mkResult gardenSaladRow 40) (by decide)

/-- C8: every data-absence condition is an empty-result condition, not an
error: the matcher search returns the empty list when no rows exist for
the resolved date (in particular on an entirely empty store, where the
latest-date lookup yields no date), and `search_menu` returns the empty
list when its filters match zero rows (in particular on an empty store). -/
theorem c8_empty_results :
    (∀ (prompt : String) (limit : Nat) (dateArg : Option String) (store : List MenuRow),
      matcherDateRows store (matcherResolveDate dateArg store) = [] →
      matcherSearch prompt limit dateArg store = []) ∧
    (∀ (prompt : String) (limit : Nat), matcherSearch prompt limit none [] = []) ∧
    (∀ (store : List MenuRow) (a : SearchArgs),
      sqlFiltered store a = [] → search_menu store a = []) ∧
    (∀ a : SearchArgs, search_menu [] a = []) := by
  have hrows : ∀ (store : List MenuRow) (d : Option String) (pq : Option String),
      matcherDateRows store d = [] → matcherRows store d pq = [] := by
    intro store d pq h
    unfold matcherRows
    rw [h]
    cases pq with
    | none => rfl
    | some p => by_cases hpe : p = "" <;> simp [hpe]
  have hm : ∀ (prompt : String) (limit : Nat) (dateArg : Option String) (store : List MenuRow),
      matcherDateRows store (matcherResolveDate dateArg store) = [] →
      matcherSearch prompt limit dateArg store = [] := by
    intro prompt limit dateArg store h
    have h2 := hrows store (matcherResolveDate dateArg store) (parsePrompt prompt).period h
    simp [matcherSearch, matcherScored, h2, sortDesc]
  have hs : ∀ (store : List MenuRow) (a : SearchArgs),
      sqlFiltered store a = [] → search_menu store a = [] := by
    intro store a h
    unfold search_menu sqlRows
    rw [h]
    simp [sortRows, dedupRows]
  refine ⟨hm, ?_, hs, ?_⟩
  · intro prompt limit
    exact hm prompt limit none [] rfl
  · intro a
    exact hs [] a rfl

/-- C8 witness: the empty-store cases, with the hypotheses discharged. -/
theorem c8_witness :
    matcherSearch "pizza" 10 none [] = [] ∧ search_menu [] {} = [] :=
  ⟨c8_empty_results.1 "pizza" 10 none [] (by decide),
   c8_empty_results.2.2.1 [] {} (by decide)⟩

/-- C9: the tool-dispatch boundary is a total function into structured
outcomes: an unknown tool name yields the error payload naming it, a
failure raised inside the tool function (modelled as an `Except.error`)
yields the error payload with its message, and a successful tool result is
passed through — no invocation propagates an uncaught fault. -/
theorem c9_tool_dispatch_total (table : String → Option (String → Except String String))
    (name : String) (args : String) :
    (table name = none →
      execute_tool_call table name args = ToolOutcome.err ("Unknown tool: " ++ name)) ∧
    (∀ f, table name = some f →
      (∀ e, f args = Except.error e →
        execute_tool_call table name args = ToolOutcome.err e) ∧
      (∀ v, f args = Except.ok v →
        execute_tool_call table name args = ToolOutcome.ok v)) := by
  refine ⟨fun h => by simp [execute_tool_call, h], fun f hf => ⟨?_, ?_⟩⟩
  · intro e he
    simp [execute_tool_call, hf, he]
  · intro v hv
    simp [execute_tool_call, hf, hv]

/-- C9 witness: a fixture table with one tool — an unknown name and a
successful call both produce structured outcomes. -/
theorem c9_witness :
    execute_tool_call toolTableFix "bogus_tool" "" =
      ToolOutcome.err ("Unknown tool: " ++ "bogus_tool") ∧
    execute_tool_call toolTableFix "list_locations" "" = ToolOutcome.ok ("[]") :=
  ⟨(c9_tool_dispatch_total toolTableFix "bogus_tool" "").1 rfl,
   ((c9_tool_dispatch_total toolTableFix "list_locations" "").2
      (fun _ => Except.ok ("[]")) rfl).2 "[]" rfl⟩

/-- C10: `search_menu` returns no two entries with the same
(name, location, period) triple, and for each key the surviving entry is
the formatted first row with that key in query order. -/
theorem c10_search_menu_dedup (store : List MenuRow) (a : SearchArgs) :
    List.Pairwise (fun x y => itemKey x ≠ itemKey y) (search_menu store a) ∧
    (∀ k : String × String × String,
      (search_menu store a).filter (fun it => decide (itemKey it = k)) =
        (((sqlRows store a).filter (fun r => decide (rowKey r = k))).take 1).map formatRow) := by
  constructor
  · exact dedupRows_pairwise (sqlRows store a) []
  · intro k
    rw [search_menu, dedupRows_filter_key (sqlRows store a) [] k]
    simp
